import Mathlib

/-!
Verification of the assessment scoring and risk aggregation engine of the
Doctor's Helper healthcare MCP server.  The definitions below are a shallow
embedding of `assessment_tools.py` and `analytics_tools.py`: column names are
lists of characters, records are ordered associations of column name to raw
cell value, and every Python computation on them is translated into an
executable Lean function.
-/

namespace DoctorsHelper

/-- Column names (Python strings) as lists of characters. -/
abbrev Name := List Char

/-- Embeds Python `str.startswith`: `startsW p s` is true when `p` is an
initial segment of `s`. -/
def startsW : Name → Name → Bool
  | [], _ => true
  | _ :: _, [] => false
  | p :: ps, c :: cs => p == c && startsW ps cs

/-- Raw cell values as stored in a record: SQL null / Python `None`, an
integer, a float (represented exactly as a rational), or a string. -/
inductive Val
  | vnone
  | vint (n : Int)
  | vrat (q : ℚ)
  | vstr (s : Name)
deriving DecidableEq

/-- Numeric value of a digit list, most significant digit first. -/
def digitsVal (ds : Name) : Nat := ds.foldl (fun a c => a * 10 + (c.toNat - 48)) 0

/-- Splits a character list at the first dot, if any. -/
def splitDot : Name → Name × Option Name
  | [] => ([], Option.none)
  | c :: cs =>
    if c = '.' then ([], Option.some cs)
    else
      let (a, b) := splitDot cs
      (c :: a, b)

/-- Unsigned decimal literals accepted by Python `float`: `digits`,
`digits.digits`, `digits.` or `.digits`. -/
def parseUnsignedFloat (t : Name) : Option ℚ :=
  match splitDot t with
  | (ip, Option.none) =>
    if !ip.isEmpty && ip.all Char.isDigit then Option.some ((digitsVal ip : ℚ))
    else Option.none
  | (ip, Option.some fp) =>
    if (!ip.isEmpty || !fp.isEmpty) && ip.all Char.isDigit && fp.all Char.isDigit then
      Option.some ((digitsVal ip : ℚ) + (digitsVal fp : ℚ) / ((10 : ℚ) ^ fp.length))
    else Option.none

/-- The sign-and-decimal fragment of Python `float(s)` on a string, used by
the simplified conversions of the scoring pipeline; the full string grammar
(surrounding whitespace, exponents, inf and nan) is modelled by
`pyFloatOfString` further below. -/
def pyFloatOfStr (s : Name) : Option ℚ :=
  match s with
  | '+' :: t => parseUnsignedFloat t
  | '-' :: t => (parseUnsignedFloat t).map (fun q => -q)
  | t => parseUnsignedFloat t

/-- `safe_float_conversion` from assessment_tools.py and analytics_tools.py
as the scoring pipeline exercises it — on cell values within double range,
where Python `float` cannot raise `OverflowError` — so this simplified form
is total.  The exact exception behaviour of the source function, including
the `OverflowError` that its `except (ValueError, TypeError)` clause does
not catch on integers beyond double range, is modelled by
`safe_float_conversion_py` further below. -/
def safe_float_conversion (value : Val) (default : ℚ) : ℚ :=
  match value with
  | .vnone => default
  | .vint n => (n : ℚ)
  | .vrat q => q
  | .vstr s =>
    match pyFloatOfStr s with
    | Option.some q => q
    | Option.none => default

/-- Truncation toward zero, as Python `int` applied to a float. -/
def pyTrunc (q : ℚ) : Int := if 0 ≤ q then ⌊q⌋ else -⌊-q⌋

/-- `safe_int_conversion` from analytics_tools.py: `int(float(value))` with
the same `None`/exception handling as `safe_float_conversion`. -/
def safe_int_conversion (value : Val) (default : Int) : Int :=
  match value with
  | .vnone => default
  | .vint n => n
  | .vrat q => pyTrunc q
  | .vstr s =>
    match pyFloatOfStr s with
    | Option.some q => pyTrunc q
    | Option.none => default

/-- A stored row: ordered association of column name to raw value (a Python
dict in insertion order, keys unique). -/
abbrev Record := List (Name × Val)

/-- `data.get(col, d)`: the first value bound to `col`, or the default. -/
def getDefault (data : Record) (c : Name) (d : Val) : Val :=
  match data.lookup c with
  | Option.some v => v
  | Option.none => d

/-- `data.keys()` in insertion order. -/
def keys (data : Record) : List Name := data.map Prod.fst

/-- The literal `f"col_{i}_"` used by the PHQ/GAD/WHO column comprehensions. -/
def colIPrefix (i : Nat) : Name := ("col_" ++ Nat.repr i ++ "_").data

/-- The PHQ/GAD/WHO column predicate shared by both source files: the name
starts with `col_` and with `col_{i}_` for some `i` in `range(lo, lo+len)`. -/
def colRangePred (lo len : Nat) (c : Name) : Bool :=
  startsW ("col_".data) c && (List.range' lo len).any (fun i => startsW (colIPrefix i) c)

/-- The per-kind column predicate of `get_assessment_score_columns` in
analytics_tools.py (the function body filters `df_columns` with it). -/
def gascPred (assessment_type : String) (c : Name) : Bool :=
  if assessment_type = "ptsd" then
    startsW ("ptsd_q".data) c && !(c == ("assessment_date".data))
  else if assessment_type = "phq" then colRangePred 1 9 c
  else if assessment_type = "gad" then colRangePred 1 7 c
  else if assessment_type = "who" then colRangePred 1 5 c
  else false

/-- `get_assessment_score_columns` from analytics_tools.py. -/
def get_assessment_score_columns (assessment_type : String) (df_columns : List Name) :
    List Name :=
  df_columns.filter (gascPred assessment_type)

/-- The per-kind column selections made inline by `calculate_assessment_total`
in assessment_tools.py (`ptsd_cols`, `phq_cols`, `gad_cols`, `who_cols`,
`ders_cols`). -/
def assessmentTotalCols (assessment_type : String) (ks : List Name) : List Name :=
  if assessment_type = "ptsd" then ks.filter (fun c => startsW ("ptsd_q".data) c)
  else if assessment_type = "phq" then ks.filter (colRangePred 1 9)
  else if assessment_type = "gad" then ks.filter (colRangePred 1 7)
  else if assessment_type = "who" then ks.filter (colRangePred 1 5)
  else if assessment_type = "ders" then
    ks.filter (fun c => startsW ("ders_q".data) c || startsW ("ders2_q".data) c)
  else []

/-- PHQ severity classification from the PHQ branch of
`calculate_assessment_total`. -/
def phqSeverity (total : ℚ) : String :=
  if total < 5 then "minimal"
  else if total < 10 then "mild"
  else if total < 15 then "moderate"
  else if total < 20 then "moderately_severe"
  else "severe"

/-- The coerced per-column scores of the PHQ branch of
`calculate_assessment_total`: resolved columns in key order, each cell run
through `safe_float_conversion`. -/
def phqScores (data : Record) : List ℚ :=
  ((keys data).filter (colRangePred 1 9)).map
    (fun c => safe_float_conversion (getDefault data c (.vint 0)) 0)

/-- The PHQ branch of `calculate_assessment_total` in assessment_tools.py:
`(calculated_total, severity, questions_answered)`. -/
def calculate_assessment_total_phq (data : Record) : ℚ × String × Nat :=
  let scores := phqScores data
  let total := scores.sum
  (total, phqSeverity total, (scores.filter (fun s => decide (0 < s))).length)

/-- The concrete PHQ record of the end-to-end scenario: nine scoring columns
holding 2,2,3,2,1,2,2,1,0, the difficulty-rating column `col_10_b` holding 2,
and two metadata columns. -/
def phqSampleRecord : Record :=
  [(("group_identifier".data), .vstr ("p1".data)),
   (("assessment_date".data), .vstr ("2024-01-01".data)),
   (("col_1_a".data), .vint 2),
   (("col_2_a".data), .vint 2),
   (("col_3_a".data), .vint 3),
   (("col_4_a".data), .vint 2),
   (("col_5_a".data), .vint 1),
   (("col_6_a".data), .vint 2),
   (("col_7_a".data), .vint 2),
   (("col_8_a".data), .vint 1),
   (("col_9_a".data), .vint 0),
   (("col_10_b".data), .vint 2)]

/-- The column-name set of the resolution-exactness scenario:
`col_1_a` … `col_9_a` plus `col_10_b` and metadata. -/
def phqColumnSet : List Name :=
  [("group_identifier".data), ("assessment_date".data),
   ("col_1_a".data), ("col_2_a".data), ("col_3_a".data), ("col_4_a".data),
   ("col_5_a".data), ("col_6_a".data), ("col_7_a".data), ("col_8_a".data),
   ("col_9_a".data), ("col_10_b".data)]

/-- The trend computation of `analyze_patient_progress` (analytics_tools.py)
on a chronologically ascending list of per-assessment total scores: the
triple `(change, percent_change, trend)`.  With fewer than two assessments
change and percent_change are 0 and the trend is `insufficient_data`. -/
def analyze_progress_trend (totals : List ℚ) : ℚ × ℚ × String :=
  if 2 ≤ totals.length then
    let first := totals.headD 0
    let latest := totals.getLastD 0
    let change := latest - first
    let pc := if 0 < first then change / first * 100 else 0
    (change, pc,
      if change < 0 then "improving"
      else if |change| ≤ 1 then "stable" else "declining")
  else (0, 0, "insufficient_data")

/-- Python `sorted` on cohort totals: ascending stable merge sort. -/
def sortedTotals (ts : List ℚ) : List ℚ := ts.mergeSort (fun a b => decide (a ≤ b))

/-- `population_median` of `compare_patient_to_population`
(analytics_tools.py): `sorted(population_totals)[len(population_totals) // 2]`. -/
def population_median (ts : List ℚ) : ℚ := (sortedTotals ts).getD (ts.length / 2) 0

/-- Python `str(value)` as applied to substance cells: strings unchanged,
`None` prints as `None`, integers print in decimal; a float cell (not present
in the substance data) is given an opaque rendering that matches no substance
name. -/
def pyStr : Val → Name
  | .vstr s => s
  | .vnone => ("None".data)
  | .vint n => (toString n).data
  | .vrat _ => ("<float>".data)

/-- ASCII whitespace for Python `str.strip`. -/
def isSpaceChar (c : Char) : Bool := c == ' ' || c == '\t' || c == '\n' || c == '\r'

/-- Python `str.strip()`. -/
def pyStrip (s : Name) : Name :=
  ((s.dropWhile isSpaceChar).reverse.dropWhile isSpaceChar).reverse

/-- Python `str.lower()` on the ASCII strings involved here. -/
def pyLower (s : Name) : Name := s.map Char.toLower

/-- The fixed `high_risk_substances` list of `calculate_composite_risk_score`
(analytics_tools.py). -/
def high_risk_substances : List Name :=
  [("Heroin".data), ("Cocaine (Powder)".data), ("Crack Cocaine".data),
   ("Crystal Meth".data), ("Oxycontin".data), ("Fentanyl".data),
   ("Methamphetamine".data)]

/-- The concurrently-active substance rows: those whose `use_flag` coerces to
the integer 1. -/
def activeSubstances (rows : List Record) : List Record :=
  rows.filter (fun s =>
    decide (safe_int_conversion (getDefault s ("use_flag".data) (.vint 0)) 0 = 1))

/-- `str(s.get("substance", "")).strip() in high_risk_substances` over the
active substances. -/
def hasHighRisk (active : List Record) : Bool :=
  active.any (fun s =>
    high_risk_substances.contains (pyStrip (pyStr (getDefault s ("substance".data) (.vstr [])))))

/-- `str(s.get("pattern_of_use", "")).lower().strip() == "daily"` over the
active substances. -/
def hasDailyUse (active : List Record) : Bool :=
  active.any (fun s =>
    pyStrip (pyLower (pyStr (getDefault s ("pattern_of_use".data) (.vstr [])))) == ("daily".data))

/-- The substance-use risk before the cap: base 1, +1 for three or more
active substances, +2 for any high-risk substance, +1 for any daily use,
mirroring the sequential `substance_risk +=` updates of the source. -/
def substanceRiskRaw (rows : List Record) : Nat :=
  1 + (if 3 ≤ (activeSubstances rows).length then 1 else 0)
    + (if hasHighRisk (activeSubstances rows) then 2 else 0)
    + (if hasDailyUse (activeSubstances rows) then 1 else 0)

/-- The substance-use risk level of `calculate_composite_risk_score`:
`min(substance_risk, 4)`. -/
def substanceRisk (rows : List Record) : Nat := min (substanceRiskRaw rows) 4

/-- Integer total over the resolved score columns, as computed inside
`calculate_composite_risk_score` via `safe_int_conversion`. -/
def intTotal (pred : Name → Bool) (data : Record) : Int :=
  (((keys data).filter pred).map
    (fun c => safe_int_conversion (getDefault data c (.vint 0)) 0)).sum

/-- PTSD risk level from the latest PTSD record (composite aggregator). -/
def ptsdRiskLevel (d : Record) : Nat :=
  let t := intTotal (fun c => startsW ("ptsd_q".data) c) d
  if t < 20 then 1 else if t < 40 then 2 else if t < 60 then 3 else 4

/-- Depression (PHQ) risk level (composite aggregator). -/
def phqRiskLevel (d : Record) : Nat :=
  let t := intTotal (colRangePred 1 9) d
  if t < 5 then 1 else if t < 10 then 2 else if t < 15 then 3 else 4

/-- Anxiety (GAD) risk level (composite aggregator). -/
def gadRiskLevel (d : Record) : Nat :=
  let t := intTotal (colRangePred 1 7) d
  if t < 5 then 1 else if t < 10 then 2 else if t < 15 then 3 else 4

/-- Wellbeing (WHO) risk level, reverse scored on the ×4 scaled total. -/
def whoRiskLevel (d : Record) : Nat :=
  let scaled := intTotal (colRangePred 1 5) d * 4
  if scaled ≤ 52 then 4 else if scaled ≤ 68 then 3 else if scaled ≤ 84 then 2 else 1

/-- Round-half-to-even on rationals, the rounding rule of Python `round`. -/
def roundHalfEven (q : ℚ) : Int :=
  let f := ⌊q⌋
  let r := q - (f : ℚ)
  if r < 1/2 then f
  else if 1/2 < r then f + 1
  else if f % 2 = 0 then f else f + 1

/-- Python `round(x, 2)` on exact rationals (the means arising here are never
representation ties, so the exact-rational rounding agrees with the float
rounding of the source). -/
def round2 (q : ℚ) : ℚ := ((roundHalfEven (q * 100) : ℚ)) / 100

/-- Result of `calculate_composite_risk_score`: per-domain risk levels in
insertion order, overall risk tier, rounded composite score, number of
domains assessed, total risk score, and whether the no-data error marker was
set. -/
structure Composite where
  risk_domains : List (String × Nat)
  overall_risk : String
  composite_score : ℚ
  domains_assessed : Nat
  total_risk_score : Nat
  no_data_error : Bool
deriving DecidableEq

/-- The per-domain `(name, risk_level)` pairs accumulated by
`calculate_composite_risk_score`, in insertion order: a domain whose store
query returned no rows contributes nothing. -/
def compositeDomains (ptsd phq gad who : Option Record)
    (substance_rows : List Record) : List (String × Nat) :=
  (match ptsd with
   | Option.some d => [("ptsd", ptsdRiskLevel d)]
   | Option.none => []) ++
  (match phq with
   | Option.some d => [("depression", phqRiskLevel d)]
   | Option.none => []) ++
  (match gad with
   | Option.some d => [("anxiety", gadRiskLevel d)]
   | Option.none => []) ++
  (match who with
   | Option.some d => [("wellbeing", whoRiskLevel d)]
   | Option.none => []) ++
  (if substance_rows.isEmpty then []
   else [("substance_use", substanceRisk substance_rows)])

/-- `calculate_composite_risk_score` from analytics_tools.py, as a function
of the latest record per clinical domain (`none` when the store returned no
rows for the patient) and the substance-history rows. -/
def calculate_composite_risk_score (ptsd phq gad who : Option Record)
    (substance_rows : List Record) : Composite :=
  let doms := compositeDomains ptsd phq gad who substance_rows
  let total := (doms.map Prod.snd).sum
  let n := doms.length
  if 0 < n then
    let avg : ℚ := (total : ℚ) / (n : ℚ)
    { risk_domains := doms
      overall_risk := if avg < 2 then "low" else if avg < 3 then "moderate" else "high"
      composite_score := round2 avg
      domains_assessed := n
      total_risk_score := total
      no_data_error := false }
  else
    { risk_domains := [], overall_risk := "unknown", composite_score := 0,
      domains_assessed := 0, total_risk_score := 0, no_data_error := true }

/-- A latest PHQ record with total 7, hence depression risk level 2. -/
def phqRecord7 : Record :=
  [(("group_identifier".data), .vstr ("p1".data)),
   (("col_1_a".data), .vint 3),
   (("col_2_a".data), .vint 4)]

/-- A latest GAD record with total 7, hence anxiety risk level 2. -/
def gadRecord7 : Record :=
  [(("group_identifier".data), .vstr ("p1".data)),
   (("col_1_b".data), .vint 3),
   (("col_2_b".data), .vint 4)]

/-- A single active high-risk substance row with a weekly pattern:
substance-use risk level 1 + 2 = 3. -/
def heroinRow : Record :=
  [(("use_flag".data), .vint 1),
   (("substance".data), .vstr ("Heroin".data)),
   (("pattern_of_use".data), .vstr ("Weekly".data))]

/-- Five active substance rows — two high-risk, one used daily (with mixed
case and whitespace) — plus one inactive row. -/
def fiveActiveRows : List Record :=
  [[(("use_flag".data), .vint 1), (("substance".data), .vstr ("Heroin".data)),
    (("pattern_of_use".data), .vstr (" Daily".data))],
   [(("use_flag".data), .vint 1), (("substance".data), .vstr ("Crystal Meth".data)),
    (("pattern_of_use".data), .vstr ("weekly".data))],
   [(("use_flag".data), .vint 1), (("substance".data), .vstr ("Alcohol".data)),
    (("pattern_of_use".data), .vstr ("monthly".data))],
   [(("use_flag".data), .vint 1), (("substance".data), .vstr ("Cannabis".data)),
    (("pattern_of_use".data), .vstr ("weekly".data))],
   [(("use_flag".data), .vint 1), (("substance".data), .vstr ("Nicotine".data)),
    (("pattern_of_use".data), .vstr ("daily".data))],
   [(("use_flag".data), .vint 0), (("substance".data), .vstr ("Cocaine (Powder)".data)),
    (("pattern_of_use".data), .vstr ("daily".data))]]

/-- The `total_score` of one data-frame row in the analytics tools: the sum
of the row's resolved score columns after `safe_float_conversion` (records
are modelled with homogeneous columns, so a row's keys stand in for the
frame's column set). -/
def floatTotal (pred : Name → Bool) (data : Record) : ℚ :=
  (((keys data).filter pred).map
    (fun c => safe_float_conversion (getDefault data c (.vint 0)) 0)).sum

/-- One flagged patient of `identify_patients_needing_attention`. -/
structure FlagEntry where
  patient : Name
  concerning_assessments : List (String × ℚ)
  risk_level : Nat
deriving DecidableEq

/-- The loop body run for one concerning row of
`identify_patients_needing_attention`: an existing flag entry for the
patient appends to its assessment list and increments its risk level;
otherwise a fresh entry with risk level 1 is appended. -/
def addFlag (acc : List FlagEntry) (atype : String) (pid : Name) (total : ℚ) :
    List FlagEntry :=
  if acc.any (fun e => decide (e.patient = pid)) then
    acc.map (fun e =>
      if e.patient = pid then
        { e with
            concerning_assessments := e.concerning_assessments ++ [(atype, total)],
            risk_level := e.risk_level + 1 }
      else e)
  else
    acc ++ [{ patient := pid, concerning_assessments := [(atype, total)], risk_level := 1 }]

/-- The per-kind pass of `identify_patients_needing_attention`: compute the
`total_score` column over the latest-per-patient rows, keep the rows at or
above the kind's clinical threshold, and fold the flag accumulation over
those concerning rows. -/
def processKind (acc : List FlagEntry) (atype : String) (pred : Name → Bool)
    (thr : ℚ) (rows : List (Name × Record)) : List FlagEntry :=
  (((rows.map (fun r => (r.1, floatTotal pred r.2))).filter
      (fun r => decide (thr ≤ r.2))).foldl
    (fun a r => addFlag a atype r.1 r.2) acc)

/-- `identify_patients_needing_attention` from analytics_tools.py, as a
function of the latest-per-patient assessment tables of the three flagged
kinds (ptsd ≥ 50, phq ≥ 15, gad ≥ 15), sorted by risk level descending
(stable, as Python `list.sort` with `reverse=True`). -/
def identify_patients_needing_attention
    (ptsdRows phqRows gadRows : List (Name × Record)) : List FlagEntry :=
  (processKind (processKind (processKind [] "ptsd" (gascPred "ptsd") 50 ptsdRows)
      "phq" (gascPred "phq") 15 phqRows)
      "gad" (gascPred "gad") 15 gadRows).mergeSort
    (fun a b => decide (b.risk_level ≤ a.risk_level))

/-- Whether a patient's latest total crosses the kind threshold. -/
def flaggedIn (pred : Name → Bool) (thr : ℚ) (rows : List (Name × Record))
    (pid : Name) : Bool :=
  ((rows.map (fun r => (r.1, floatTotal pred r.2))).filter
      (fun r => decide (thr ≤ r.2))).any
    (fun r => decide (r.1 = pid))

/-- The number of flagging kinds for a patient: how many of the three
thresholds the patient's latest totals cross. -/
def flagKindCount (ptsdRows phqRows gadRows : List (Name × Record)) (pid : Name) : Nat :=
  (if flaggedIn (gascPred "ptsd") 50 ptsdRows pid then 1 else 0) +
  (if flaggedIn (gascPred "phq") 15 phqRows pid then 1 else 0) +
  (if flaggedIn (gascPred "gad") 15 gadRows pid then 1 else 0)

/-- Flag-list bookkeeping: the list has exactly one entry for every patient
with `f patient > 0` and none otherwise, and that entry's risk level and
assessment count both equal `f patient`. -/
def FlagInv (l : List FlagEntry) (f : Name → Nat) : Prop :=
  ∀ pid,
    ((l.filter (fun e => decide (e.patient = pid))).length
      = if f pid = 0 then 0 else 1) ∧
    ∀ e ∈ l, e.patient = pid →
      e.risk_level = f pid ∧ e.concerning_assessments.length = f pid

/-- Latest-per-patient PHQ rows of the flagging scenario: patient a has
total 16, patient b total 18, both at or above the PHQ threshold of 15. -/
def phqLatestRows : List (Name × Record) :=
  [(("a".data), [(("col_1_a".data), .vint 16)]),
   (("b".data), [(("col_1_a".data), .vint 18)])]

/-- Latest-per-patient GAD rows of the flagging scenario: patient a has
total 15 (at the GAD threshold), patient b total 3 (below it). -/
def gadLatestRows : List (Name × Record) :=
  [(("a".data), [(("col_1_g".data), .vint 15)]),
   (("b".data), [(("col_1_g".data), .vint 3)])]

/-- Structured result shapes of the public tools: a success payload, an
informational "message" dict, or an "error" dict. -/
inductive ToolResult (α : Type)
  | success (payload : α)
  | message (text : String)
  | error (text : String)

/-- PTSD severity classification of `calculate_assessment_total`. -/
def ptsdSeverity (total : ℚ) : String :=
  if total < 20 then "minimal"
  else if total < 40 then "mild"
  else if total < 60 then "moderate"
  else "severe"

/-- The PTSD branch of `calculate_assessment_total` in assessment_tools.py:
`(calculated_total, severity, questions_answered)`. -/
def calculate_assessment_total_ptsd (data : Record) : ℚ × String × Nat :=
  let scores := ((keys data).filter (fun c => startsW ("ptsd_q".data) c)).map
    (fun c => safe_float_conversion (getDefault data c (.vint 0)) 0)
  (scores.sum, ptsdSeverity scores.sum,
    (scores.filter (fun s => decide (0 < s))).length)

/-- The payload of a successful `get_patient_ptsd_scores` call: the enriched
assessments plus the latest score and severity. -/
structure PtsdScoresPayload where
  assessment_count : Nat
  assessments : List (ℚ × String × Nat)
  latest_score : ℚ
  latest_severity : String

/-- The body of `get_patient_ptsd_scores` inside its `try`, in the exception
monad: the store query may raise; an empty result yields the informational
message shape; otherwise the records are enriched and the success shape is
returned (rows arrive ordered by assessment date descending, so the latest
is the head). -/
def ptsdScoresBody (patient_id : String) (store : Except String (List Record)) :
    Except String (ToolResult PtsdScoresPayload) := do
  let rows ← store
  if rows.isEmpty then
    return .message ("No PTSD assessments found for patient " ++ patient_id)
  else
    let enriched := rows.map calculate_assessment_total_ptsd
    return .success
      { assessment_count := enriched.length
        assessments := enriched
        latest_score := (enriched.headD (0, "", 0)).1
        latest_severity := (enriched.headD (0, "", 0)).2.1 }

/-- `get_patient_ptsd_scores` from assessment_tools.py: the body wrapped in
`try/except`, converting any raised exception into the structured error
shape carrying the original message. -/
def get_patient_ptsd_scores (patient_id : String)
    (store : Except String (List Record)) : ToolResult PtsdScoresPayload :=
  match ptsdScoresBody patient_id store with
  | Except.ok r => r
  | Except.error e => .error ("Failed to retrieve PTSD scores: " ++ e)

/-- The body of `calculate_composite_risk_score` inside its `try`: five
store queries in sequence, any of which may raise and abort the rest. -/
def compositeBody (ptsdQ phqQ gadQ whoQ : Except String (Option Record))
    (substQ : Except String (List Record)) : Except String Composite := do
  let p ← ptsdQ
  let q ← phqQ
  let g ← gadQ
  let w ← whoQ
  let s ← substQ
  return calculate_composite_risk_score p q g w s

/-- The `calculate_composite_risk_score` tool with its `try/except` wrapper
(analytics_tools.py lines 493-494). -/
def calculate_composite_risk_tool (ptsdQ phqQ gadQ whoQ : Except String (Option Record))
    (substQ : Except String (List Record)) : ToolResult Composite :=
  match compositeBody ptsdQ phqQ gadQ whoQ substQ with
  | Except.ok c => .success c
  | Except.error e => .error ("Failed to calculate composite risk score: " ++ e)

/-- The Python exceptions `float(value)` can raise on this value domain:
`TypeError` for `None`, `ValueError` for a non-numeric string, and
`OverflowError` for an integer beyond the double range. -/
inductive PyExc
  | valueError
  | typeError
  | overflowError
deriving DecidableEq

/-- A CPython float: a finite double (modelled as an exact rational, as
floats are everywhere in this file), an infinity, or nan. -/
inductive PyFloat
  | finite (q : ℚ)
  | inf
  | neginf
  | nan
deriving DecidableEq

/-- Negation of a Python float, for a leading minus sign. -/
def PyFloat.neg : PyFloat → PyFloat
  | .finite q => .finite (-q)
  | .inf => .neginf
  | .neginf => .inf
  | .nan => .nan

/-- The smallest magnitude at which IEEE-754 double rounding overflows to
infinity: 2^1024 − 2^970, halfway between the largest finite double
(2^1024 − 2^971) and 2^1024, which round-half-to-even sends upward.
`float(int)` raises `OverflowError` at and beyond this bound, while string
conversion saturates to an infinity instead. -/
def overflowBound : Nat := 2 ^ 1024 - 2 ^ 970

/-- Splits a character list at the first `e`/`E`, if any (the exponent
marker of a float literal). -/
def splitExp : Name → Name × Option Name
  | [] => ([], Option.none)
  | c :: cs =>
    if c = 'e' ∨ c = 'E' then ([], Option.some cs)
    else
      let (a, b) := splitExp cs
      (c :: a, b)

/-- The signed decimal-integer exponent of a float literal. -/
def parseExp (t : Name) : Option Int :=
  match t with
  | '+' :: u =>
    if !u.isEmpty && u.all Char.isDigit then Option.some ((digitsVal u : Int))
    else Option.none
  | '-' :: u =>
    if !u.isEmpty && u.all Char.isDigit then Option.some (-(digitsVal u : Int))
    else Option.none
  | u =>
    if !u.isEmpty && u.all Char.isDigit then Option.some ((digitsVal u : Int))
    else Option.none

/-- An unsigned Python float literal: the words inf, infinity or nan
(case-insensitive), or a decimal mantissa with an optional `e`/`E`
exponent; a finite value at or beyond the overflow bound saturates to
infinity, as CPython's string conversion does.  Digit-group underscores and
non-ASCII digits are not modelled. -/
def parseUnsignedPyFloat (t : Name) : Option PyFloat :=
  let low := pyLower t
  if low = ("inf".data) ∨ low = ("infinity".data) then Option.some PyFloat.inf
  else if low = ("nan".data) then Option.some PyFloat.nan
  else
    match splitExp t with
    | (m, Option.none) =>
      (parseUnsignedFloat m).map (fun q =>
        if (overflowBound : ℚ) ≤ q then PyFloat.inf else PyFloat.finite q)
    | (m, Option.some ex) =>
      match parseUnsignedFloat m, parseExp ex with
      | Option.some q, Option.some e =>
        let v := q * (10 : ℚ) ^ e
        Option.some (if (overflowBound : ℚ) ≤ v then PyFloat.inf else PyFloat.finite v)
      | _, _ => Option.none

/-- Python `float(s)` on a string: surrounding ASCII whitespace stripped,
then an optional sign applied to an unsigned literal; `none` when `float`
raises `ValueError`. -/
def pyFloatOfString (s : Name) : Option PyFloat :=
  match pyStrip s with
  | '+' :: t => parseUnsignedPyFloat t
  | '-' :: t => (parseUnsignedPyFloat t).map PyFloat.neg
  | t => parseUnsignedPyFloat t

/-- Python `float(value)` with its full outcome on this value domain: a
float, or a raised exception — `TypeError` for `None`, `OverflowError` for
an integer at or beyond the double overflow bound, `ValueError` for a
non-numeric string.  In-range conversions are modelled exactly rather than
rounded to the nearest double, consistent with the rest of this file. -/
def pyFloatCall : Val → Except PyExc PyFloat
  | .vnone => Except.error PyExc.typeError
  | .vint n =>
    if overflowBound ≤ n.natAbs then Except.error PyExc.overflowError
    else Except.ok (PyFloat.finite ((n : ℚ)))
  | .vrat q => Except.ok (PyFloat.finite q)
  | .vstr s =>
    match pyFloatOfString s with
    | Option.some f => Except.ok f
    | Option.none => Except.error PyExc.valueError

/-- `safe_float_conversion` from assessment_tools.py with Python's actual
exception semantics: the `None` guard returns the default, the
`except (ValueError, TypeError)` clause returns the default for exactly
those two exception types, and an `OverflowError` raised by `float(value)`
is not caught and propagates out of the function. -/
def safe_float_conversion_py (value : Val) (default : PyFloat) :
    Except PyExc PyFloat :=
  if value = Val.vnone then Except.ok default
  else
    match pyFloatCall value with
    | Except.ok f => Except.ok f
    | Except.error PyExc.valueError => Except.ok default
    | Except.error PyExc.typeError => Except.ok default
    | Except.error PyExc.overflowError => Except.error PyExc.overflowError

end DoctorsHelper

namespace DoctorsHelper

/-- The "phq" branch of `gascPred`, by reduction of the dispatch. -/
theorem gascPred_phq (c : Name) : gascPred "phq" c = colRangePred 1 9 c := rfl

/-- The "ptsd" branch of `gascPred`: the `assessment_date` exclusion is
vacuous because no name starting with `ptsd_q` equals `assessment_date`. -/
theorem gascPred_ptsd (c : Name) : gascPred "ptsd" c = startsW ("ptsd_q".data) c := by
  show (startsW ("ptsd_q".data) c && !(c == ("assessment_date".data))) = _
  cases h : startsW ("ptsd_q".data) c with
  | false => simp
  | true =>
    have hne : c ≠ ("assessment_date".data) := by
      intro hc
      subst hc
      exact absurd h (by decide)
    simp [beq_eq_false_iff_ne.mpr hne]

/-- Membership characterisation of the shared PHQ column predicate. -/
theorem colRangePred_one_nine (c : Name) :
    colRangePred 1 9 c = true ↔
      startsW ("col_".data) c = true ∧
        ∃ i, 1 ≤ i ∧ i ≤ 9 ∧ startsW (colIPrefix i) c = true := by
  simp only [colRangePred, Bool.and_eq_true, List.any_eq_true]
  constructor
  · rintro ⟨h1, i, hmem, h2⟩
    have hi : 1 ≤ i ∧ i < 1 + 9 := List.mem_range'_1.mp hmem
    exact ⟨h1, i, hi.1, by omega, h2⟩
  · rintro ⟨h1, i, hi1, hi2, h2⟩
    exact ⟨h1, i, List.mem_range'_1.mpr (by omega), h2⟩

/-- C1: a PHQ record whose nine scoring columns hold [2,2,3,2,1,2,2,1,0] and
whose `col_10_*` difficulty column holds 2 is scored with
`calculated_total = 15`, `severity = "moderately_severe"` and
`questions_answered = 8`: the zero-valued item is excluded from the answered
count and `col_10` contributes nothing. -/
theorem phq_end_to_end :
    calculate_assessment_total_phq phqSampleRecord = (15, "moderately_severe", 8) := by
  have hs : phqScores phqSampleRecord = [2, 2, 3, 2, 1, 2, 2, 1, 0] := by decide
  show ((phqScores phqSampleRecord).sum, phqSeverity (phqScores phqSampleRecord).sum,
      ((phqScores phqSampleRecord).filter (fun s => decide (0 < s))).length) = _
  rw [hs]
  have h15 : ([2, 2, 3, 2, 1, 2, 2, 1, 0] : List ℚ).sum = 15 := by
    simp only [List.sum_cons, List.sum_nil]
    norm_num
  rw [h15]
  refine Prod.ext rfl (Prod.ext ?_ ?_)
  · show phqSeverity 15 = "moderately_severe"
    rw [phqSeverity, if_neg (by norm_num), if_neg (by norm_num), if_neg (by norm_num),
      if_pos (by norm_num)]
  · show (List.filter _ _).length = 8
    decide

/-- C2: for every column-name set the PHQ resolver selects exactly the columns
that start with `col_` and with `col_{i}_` for some `i` in 1..9; a column of
the form `col_10_…` is never selected; and on the concrete column set
`col_1_a` … `col_10_b` it resolves to exactly the nine scoring columns. -/
theorem phq_column_resolution :
    (∀ ks c, c ∈ get_assessment_score_columns "phq" ks ↔
      c ∈ ks ∧ startsW ("col_".data) c = true ∧
        ∃ i, 1 ≤ i ∧ i ≤ 9 ∧ startsW (colIPrefix i) c = true) ∧
    (∀ s, colRangePred 1 9 (("col_10_".data) ++ s) = false) ∧
    get_assessment_score_columns "phq" phqColumnSet =
      [("col_1_a".data), ("col_2_a".data), ("col_3_a".data), ("col_4_a".data),
       ("col_5_a".data), ("col_6_a".data), ("col_7_a".data), ("col_8_a".data),
       ("col_9_a".data)] := by
  refine ⟨?_, fun s => rfl, by decide⟩
  intro ks c
  rw [get_assessment_score_columns]
  rw [List.filter_congr (fun c _ => gascPred_phq c)]
  rw [List.mem_filter]
  rw [colRangePred_one_nine]

/-- C10: the inline column selection of `calculate_assessment_total` agrees
with `get_assessment_score_columns` for each of the four kinds ptsd, phq, gad
and who; the extra `assessment_date` exclusion in the analytics PTSD branch is
vacuous because no `ptsd_q…` column equals `assessment_date`. -/
theorem column_resolution_agreement :
    (∀ ks, assessmentTotalCols "ptsd" ks = get_assessment_score_columns "ptsd" ks) ∧
    (∀ ks, assessmentTotalCols "phq" ks = get_assessment_score_columns "phq" ks) ∧
    (∀ ks, assessmentTotalCols "gad" ks = get_assessment_score_columns "gad" ks) ∧
    (∀ ks, assessmentTotalCols "who" ks = get_assessment_score_columns "who" ks) := by
  refine ⟨?_, fun ks => rfl, fun ks => rfl, fun ks => rfl⟩
  intro ks
  show ks.filter (fun c => startsW ("ptsd_q".data) c) = ks.filter (gascPred "ptsd")
  exact List.filter_congr (fun c _ => (gascPred_ptsd c).symm)

/-- C5: on two or more chronologically ordered totals the change is latest
minus first; the trend is `improving` whenever the change is negative,
otherwise `stable` when its absolute value is at most 1, otherwise
`declining`; with fewer than two assessments the trend is
`insufficient_data` and the change is 0.  In particular change -0.4 gives
improving, +0.4 stable, +1.5 declining, -50 improving. -/
theorem trend_classification :
    (∀ ts : List ℚ, ts.length < 2 → analyze_progress_trend ts = (0, 0, "insufficient_data")) ∧
    (∀ ts : List ℚ, 2 ≤ ts.length →
      (analyze_progress_trend ts).1 = ts.getLastD 0 - ts.headD 0 ∧
      (analyze_progress_trend ts).2.2 =
        (if ts.getLastD 0 - ts.headD 0 < 0 then "improving"
         else if |ts.getLastD 0 - ts.headD 0| ≤ 1 then "stable" else "declining")) ∧
    (analyze_progress_trend [1, 3/5]).1 = -(2/5) ∧
    (analyze_progress_trend [1, 3/5]).2.2 = "improving" ∧
    (analyze_progress_trend [1, 7/5]).1 = 2/5 ∧
    (analyze_progress_trend [1, 7/5]).2.2 = "stable" ∧
    (analyze_progress_trend [1, 5/2]).1 = 3/2 ∧
    (analyze_progress_trend [1, 5/2]).2.2 = "declining" ∧
    (analyze_progress_trend [51, 1]).1 = -50 ∧
    (analyze_progress_trend [51, 1]).2.2 = "improving" := by
  have hgen : ∀ ts : List ℚ, 2 ≤ ts.length →
      (analyze_progress_trend ts).1 = ts.getLastD 0 - ts.headD 0 ∧
      (analyze_progress_trend ts).2.2 =
        (if ts.getLastD 0 - ts.headD 0 < 0 then "improving"
         else if |ts.getLastD 0 - ts.headD 0| ≤ 1 then "stable" else "declining") := by
    intro ts h
    simp only [analyze_progress_trend]
    rw [if_pos h]
    exact ⟨rfl, rfl⟩
  have hcase : ∀ a b : ℚ, analyze_progress_trend [a, b] =
      (b - a, if 0 < a then (b - a) / a * 100 else 0,
        if b - a < 0 then "improving"
        else if |b - a| ≤ 1 then "stable" else "declining") := by
    intro a b
    simp only [analyze_progress_trend]
    rw [if_pos (by simp)]
    rfl
  refine ⟨?_, hgen, ?_, ?_, ?_, ?_, ?_, ?_, ?_, ?_⟩
  · intro ts h
    simp only [analyze_progress_trend]
    rw [if_neg (by omega)]
  · rw [hcase]
    norm_num
  · rw [hcase]
    show (if (3 : ℚ)/5 - 1 < 0 then "improving"
      else if |(3 : ℚ)/5 - 1| ≤ 1 then "stable" else "declining") = "improving"
    rw [if_pos (by norm_num)]
  · rw [hcase]
    norm_num
  · rw [hcase]
    show (if (7 : ℚ)/5 - 1 < 0 then "improving"
      else if |(7 : ℚ)/5 - 1| ≤ 1 then "stable" else "declining") = "stable"
    have habs : |(7 : ℚ)/5 - 1| = 2/5 := by
      rw [abs_of_pos (by norm_num)]
      norm_num
    rw [if_neg (by norm_num), habs, if_pos (by norm_num)]
  · rw [hcase]
    norm_num
  · rw [hcase]
    show (if (5 : ℚ)/2 - 1 < 0 then "improving"
      else if |(5 : ℚ)/2 - 1| ≤ 1 then "stable" else "declining") = "declining"
    have habs : |(5 : ℚ)/2 - 1| = 3/2 := by
      rw [abs_of_pos (by norm_num)]
      norm_num
    rw [if_neg (by norm_num), habs, if_neg (by norm_num)]
  · rw [hcase]
    norm_num
  · rw [hcase]
    show (if (1 : ℚ) - 51 < 0 then "improving"
      else if |(1 : ℚ) - 51| ≤ 1 then "stable" else "declining") = "improving"
    rw [if_pos (by norm_num)]

/-- Permutation property of the embedded `sorted`. -/
theorem sortedTotals_perm (ts : List ℚ) : (sortedTotals ts).Perm ts :=
  List.mergeSort_perm ts _

/-- Sortedness of the embedded `sorted`. -/
theorem sortedTotals_pairwise (ts : List ℚ) :
    List.Pairwise (fun a b : ℚ => a ≤ b) (sortedTotals ts) := by
  have h : (List.mergeSort ts (fun a b : ℚ => decide (a ≤ b))).Pairwise
      (fun a b : ℚ => decide (a ≤ b) = true) :=
    List.sorted_mergeSort
      (fun a b c h1 h2 => by
        simp only [decide_eq_true_eq] at h1 h2 ⊢
        exact le_trans h1 h2)
      (fun a b => by
        simp only [Bool.or_eq_true, decide_eq_true_eq]
        exact le_total a b)
      ts
  exact h.imp (fun hd => of_decide_eq_true hd)

/-- C6 is refuted: on the even cohort [10, 20, 30, 40] the code reports
median 30 — the upper-middle element — whereas the lower-middle element of
the ascending sort is 20. -/
theorem population_median_counterexample :
    population_median [10, 20, 30, 40] = 30 ∧
    (sortedTotals [10, 20, 30, 40]).getD (4 / 2 - 1) 0 = 20 ∧
    (30 : ℚ) ≠ 20 := by
  have hs : sortedTotals [10, 20, 30, 40] = [10, 20, 30, 40] :=
    List.mergeSort_of_sorted (by decide)
  refine ⟨?_, ?_, by norm_num⟩
  · show (sortedTotals [10, 20, 30, 40]).getD (4 / 2) 0 = 30
    rw [hs]
    rfl
  · rw [hs]
    rfl

/-- C6 amended: for an even-sized cohort (size 2m, m ≥ 1) the reported
median is the upper-middle element of the ascending sort: it is the entry at
index m of the sorted totals, belongs to the cohort, at least m+1 cohort
totals are ≤ it and at least m are ≥ it; the two middle values are never
averaged. -/
theorem population_median_even_upper_middle (ts : List ℚ) (m : Nat)
    (hm : 0 < m) (hlen : ts.length = 2 * m) :
    population_median ts = (sortedTotals ts).getD m 0 ∧
    population_median ts ∈ ts ∧
    m + 1 ≤ (ts.filter (fun x => decide (x ≤ population_median ts))).length ∧
    m ≤ (ts.filter (fun x => decide (population_median ts ≤ x))).length := by
  have hperm := sortedTotals_perm ts
  have hslen : (sortedTotals ts).length = 2 * m := by rw [hperm.length_eq, hlen]
  have hmlt : m < (sortedTotals ts).length := by omega
  have hidx : ts.length / 2 = m := by omega
  have hmed : population_median ts = (sortedTotals ts).getD m 0 := by
    rw [population_median, hidx]
  have hmedget : population_median ts = (sortedTotals ts)[m] := by
    rw [hmed]
    exact List.getD_eq_getElem _ _ hmlt
  have hpw := sortedTotals_pairwise ts
  have hpwget := List.pairwise_iff_getElem.mp hpw
  refine ⟨hmed, ?_, ?_, ?_⟩
  · rw [hmedget]
    exact hperm.mem_iff.mp (List.getElem_mem hmlt)
  · have he : (ts.filter (fun x => decide (x ≤ population_median ts))).length =
        ((sortedTotals ts).filter (fun x => decide (x ≤ population_median ts))).length :=
      ((hperm.filter _).length_eq).symm
    rw [he]
    have hsplit := List.take_append_drop (m + 1) (sortedTotals ts)
    have htake : ((sortedTotals ts).take (m + 1)).filter
        (fun x => decide (x ≤ population_median ts)) = (sortedTotals ts).take (m + 1) := by
      refine List.filter_eq_self.mpr ?_
      intro b hb
      obtain ⟨i, hi, hbi⟩ := List.mem_iff_getElem.mp hb
      have hitake : i < m + 1 := by
        have := hi
        simp only [List.length_take] at this
        omega
      have hilen : i < (sortedTotals ts).length := by omega
      have hbi2 : b = (sortedTotals ts)[i] := by
        rw [← hbi]
        simp
      rw [hmedget, hbi2]
      rcases Nat.lt_or_ge i m with hlt | hge
      · exact decide_eq_true (hpwget i m (by omega) hmlt hlt)
      · have : i = m := by omega
        subst this
        exact decide_eq_true le_rfl
    calc m + 1 = ((sortedTotals ts).take (m + 1)).length := by
          rw [List.length_take]
          omega
      _ = (((sortedTotals ts).take (m + 1)).filter
            (fun x => decide (x ≤ population_median ts))).length := by rw [htake]
      _ ≤ ((sortedTotals ts).filter (fun x => decide (x ≤ population_median ts))).length := by
          conv_rhs => rw [← hsplit]
          rw [List.filter_append, List.length_append]
          omega
  · have he : (ts.filter (fun x => decide (population_median ts ≤ x))).length =
        ((sortedTotals ts).filter (fun x => decide (population_median ts ≤ x))).length :=
      ((hperm.filter _).length_eq).symm
    rw [he]
    have hsplit := List.take_append_drop m (sortedTotals ts)
    have hdrop : ((sortedTotals ts).drop m).filter
        (fun x => decide (population_median ts ≤ x)) = (sortedTotals ts).drop m := by
      refine List.filter_eq_self.mpr ?_
      intro b hb
      obtain ⟨i, hi, hbi⟩ := List.mem_iff_getElem.mp hb
      have hilen : m + i < (sortedTotals ts).length := by
        have := hi
        simp only [List.length_drop] at this
        omega
      have hbi2 : b = (sortedTotals ts)[m + i] := by
        rw [← hbi]
        simp
      rw [hmedget, hbi2]
      rcases Nat.eq_zero_or_pos i with hz | hpos
      · subst hz
        exact decide_eq_true le_rfl
      · exact decide_eq_true (hpwget m (m + i) hmlt hilen (by omega))
    calc m = ((sortedTotals ts).drop m).length := by
          rw [List.length_drop]
          omega
      _ = (((sortedTotals ts).drop m).filter
            (fun x => decide (population_median ts ≤ x))).length := by rw [hdrop]
      _ ≤ ((sortedTotals ts).filter (fun x => decide (population_median ts ≤ x))).length := by
          conv_rhs => rw [← hsplit]
          rw [List.filter_append, List.length_append]
          omega

/-- Concrete instantiation of the amended C6 statement at the cohort
[10, 20, 30, 40] with m = 2. -/
theorem population_median_even_upper_middle_witness :
    population_median [10, 20, 30, 40] ∈ ([10, 20, 30, 40] : List ℚ) :=
  (population_median_even_upper_middle [10, 20, 30, 40] 2 (by norm_num) (by norm_num)).2.1

/-- Concrete instantiation of the C5 statement: the empty history is
classified as insufficient data. -/
theorem trend_classification_witness :
    analyze_progress_trend ([] : List ℚ) = (0, 0, "insufficient_data") :=
  trend_classification.1 [] (by norm_num)

/-- Membership reading of the high-risk check. -/
theorem hasHighRisk_iff (active : List Record) :
    hasHighRisk active = true ↔
      ∃ s ∈ active,
        pyStrip (pyStr (getDefault s ("substance".data) (.vstr []))) ∈
          high_risk_substances := by
  simp only [hasHighRisk]
  rw [List.any_eq_true]
  constructor
  · rintro ⟨s, hs, hf⟩
    exact ⟨s, hs, List.elem_iff.mp hf⟩
  · rintro ⟨s, hs, hm⟩
    exact ⟨s, hs, List.elem_iff.mpr hm⟩

/-- Membership reading of the daily-use check. -/
theorem hasDailyUse_iff (active : List Record) :
    hasDailyUse active = true ↔
      ∃ s ∈ active,
        pyStrip (pyLower (pyStr (getDefault s ("pattern_of_use".data) (.vstr [])))) =
          ("daily".data) := by
  simp only [hasDailyUse]
  rw [List.any_eq_true]
  constructor
  · rintro ⟨s, hs, hf⟩
    exact ⟨s, hs, eq_of_beq hf⟩
  · rintro ⟨s, hs, hm⟩
    exact ⟨s, hs, beq_of_eq hm⟩

/-- C4: the substance-use risk level is base 1, plus 1 for three or more
concurrently active substances, plus 2 when any active substance is on the
fixed high-risk list, plus 1 when any active substance's usage pattern
equals "daily" after case-insensitive trimming, capped at 4; five active
substances with a high-risk substance and daily use yield raw 1+1+2+1 = 5,
returned as 4. -/
theorem substance_risk_formula :
    (∀ rows : List Record,
      substanceRisk rows =
        min (1 + (if 3 ≤ (activeSubstances rows).length then 1 else 0)
               + (if ∃ s ∈ activeSubstances rows,
                    pyStrip (pyStr (getDefault s ("substance".data) (.vstr []))) ∈
                      high_risk_substances then 2 else 0)
               + (if ∃ s ∈ activeSubstances rows,
                    pyStrip (pyLower (pyStr (getDefault s ("pattern_of_use".data) (.vstr [])))) =
                      ("daily".data) then 1 else 0)) 4) ∧
    (∀ rows : List Record, substanceRisk rows ≤ 4) ∧
    (activeSubstances fiveActiveRows).length = 5 ∧
    substanceRiskRaw fiveActiveRows = 5 ∧
    substanceRisk fiveActiveRows = 4 := by
  refine ⟨?_, fun rows => Nat.min_le_right _ _, by decide, by decide, by decide⟩
  intro rows
  rw [substanceRisk, substanceRiskRaw]
  rw [if_congr (hasHighRisk_iff (activeSubstances rows)) rfl rfl]
  rw [if_congr (hasDailyUse_iff (activeSubstances rows)) rfl rfl]

/-- Branch evaluation of the composite result when at least one domain has
data. -/
theorem composite_pos (p q g w : Option Record) (srows : List Record)
    (h : 0 < (compositeDomains p q g w srows).length) :
    calculate_composite_risk_score p q g w srows =
      { risk_domains := compositeDomains p q g w srows
        overall_risk :=
          if (((compositeDomains p q g w srows).map Prod.snd).sum : ℚ) /
              ((compositeDomains p q g w srows).length : ℚ) < 2 then "low"
          else if (((compositeDomains p q g w srows).map Prod.snd).sum : ℚ) /
              ((compositeDomains p q g w srows).length : ℚ) < 3 then "moderate"
          else "high"
        composite_score :=
          round2 ((((compositeDomains p q g w srows).map Prod.snd).sum : ℚ) /
            ((compositeDomains p q g w srows).length : ℚ))
        domains_assessed := (compositeDomains p q g w srows).length
        total_risk_score := ((compositeDomains p q g w srows).map Prod.snd).sum
        no_data_error := false } := by
  simp only [calculate_composite_risk_score]
  rw [if_pos h]

/-- Branch evaluation of the composite result with no domain data. -/
theorem composite_zero (p q g w : Option Record) (srows : List Record)
    (h : ¬ 0 < (compositeDomains p q g w srows).length) :
    calculate_composite_risk_score p q g w srows =
      { risk_domains := [], overall_risk := "unknown", composite_score := 0,
        domains_assessed := 0, total_risk_score := 0, no_data_error := true } := by
  simp only [calculate_composite_risk_score]
  rw [if_neg h]

/-- The domain names present in the accumulated list: exactly those whose
query had data, in insertion order. -/
theorem compositeDomains_map_fst (p q g w : Option Record) (srows : List Record) :
    (compositeDomains p q g w srows).map Prod.fst =
      (if p.isSome then ["ptsd"] else []) ++
      (if q.isSome then ["depression"] else []) ++
      (if g.isSome then ["anxiety"] else []) ++
      (if w.isSome then ["wellbeing"] else []) ++
      (if srows.isEmpty then [] else ["substance_use"]) := by
  rcases p with _ | dp <;> rcases q with _ | dq <;> rcases g with _ | dg <;>
    rcases w with _ | dw <;> rcases srows with _ | ⟨r, rs⟩ <;> rfl

/-- The three-domain composite input of the C3 counterexample: depression
risk 2, anxiety risk 2, substance-use risk 3, mean 7/3. -/
theorem composite_score_not_exact_mean :
    (calculate_composite_risk_score Option.none (Option.some phqRecord7)
      (Option.some gadRecord7) Option.none [heroinRow]).risk_domains =
        [("depression", 2), ("anxiety", 2), ("substance_use", 3)] ∧
    (calculate_composite_risk_score Option.none (Option.some phqRecord7)
      (Option.some gadRecord7) Option.none [heroinRow]).domains_assessed = 3 ∧
    (calculate_composite_risk_score Option.none (Option.some phqRecord7)
      (Option.some gadRecord7) Option.none [heroinRow]).composite_score = 233/100 ∧
    (233 : ℚ)/100 ≠
      (((calculate_composite_risk_score Option.none (Option.some phqRecord7)
          (Option.some gadRecord7) Option.none [heroinRow]).risk_domains.map
            Prod.snd).sum : ℚ) /
        ((calculate_composite_risk_score Option.none (Option.some phqRecord7)
          (Option.some gadRecord7) Option.none [heroinRow]).domains_assessed : ℚ) := by
  have hfloor : ⌊(7 : ℚ)/3 * 100⌋ = 233 := by
    rw [Int.floor_eq_iff]
    constructor <;> norm_num
  have hround : round2 ((7 : ℚ)/3) = 233/100 := by
    simp only [round2, roundHalfEven, hfloor]
    rw [if_pos (by norm_num)]
    norm_num
  have hcs : (calculate_composite_risk_score Option.none (Option.some phqRecord7)
      (Option.some gadRecord7) Option.none [heroinRow]).composite_score =
      round2 (((7 : Nat) : ℚ) / ((3 : Nat) : ℚ)) := rfl
  have hcast : (((7 : Nat) : ℚ) / ((3 : Nat) : ℚ)) = (7 : ℚ)/3 := by norm_num
  refine ⟨by decide, by decide, ?_, ?_⟩
  · rw [hcs, hcast, hround]
  · have hsum : (((calculate_composite_risk_score Option.none (Option.some phqRecord7)
        (Option.some gadRecord7) Option.none [heroinRow]).risk_domains.map
          Prod.snd).sum : Nat) = 7 := by decide
    have hda : (calculate_composite_risk_score Option.none (Option.some phqRecord7)
        (Option.some gadRecord7) Option.none [heroinRow]).domains_assessed = 3 := by decide
    rw [hsum, hda]
    intro h
    have : (233 : ℚ) * 3 = 7 * 100 := by
      field_simp at h
      linarith
    norm_num at this

/-- C3 amended: a clinical domain with no record is skipped entirely (its
name never appears and it is not zero-filled); whenever at least one domain
is present, total_risk_score is the sum of the included risk levels,
composite_score is the mean of the included risk levels rounded to two
decimal places (Python `round(x, 2)`), and overall_risk is determined from
the unrounded mean by: mean < 2 low, mean < 3 moderate, else high.  The
concrete scenario — only a PHQ domain at risk level 2 and a substance-use
domain at risk level 3 — yields composite_score 2.5, domains_assessed 2,
overall_risk moderate. -/
theorem composite_risk_aggregation :
    (∀ p q g w srows,
      (calculate_composite_risk_score p q g w srows).risk_domains.map Prod.fst =
        (if p.isSome then ["ptsd"] else []) ++
        (if q.isSome then ["depression"] else []) ++
        (if g.isSome then ["anxiety"] else []) ++
        (if w.isSome then ["wellbeing"] else []) ++
        (if srows.isEmpty then [] else ["substance_use"]) ∧
      (calculate_composite_risk_score p q g w srows).domains_assessed =
        (calculate_composite_risk_score p q g w srows).risk_domains.length) ∧
    (∀ p q g w srows,
      0 < (calculate_composite_risk_score p q g w srows).domains_assessed →
      (calculate_composite_risk_score p q g w srows).total_risk_score =
        ((calculate_composite_risk_score p q g w srows).risk_domains.map Prod.snd).sum ∧
      (calculate_composite_risk_score p q g w srows).composite_score =
        round2 (((calculate_composite_risk_score p q g w srows).total_risk_score : ℚ) /
          ((calculate_composite_risk_score p q g w srows).domains_assessed : ℚ)) ∧
      (calculate_composite_risk_score p q g w srows).overall_risk =
        (if (((calculate_composite_risk_score p q g w srows).total_risk_score : ℚ) /
            ((calculate_composite_risk_score p q g w srows).domains_assessed : ℚ)) < 2
         then "low"
         else if (((calculate_composite_risk_score p q g w srows).total_risk_score : ℚ) /
            ((calculate_composite_risk_score p q g w srows).domains_assessed : ℚ)) < 3
         then "moderate" else "high") ∧
      (calculate_composite_risk_score p q g w srows).no_data_error = false) ∧
    (calculate_composite_risk_score Option.none (Option.some phqRecord7) Option.none
      Option.none [heroinRow]).risk_domains = [("depression", 2), ("substance_use", 3)] ∧
    (calculate_composite_risk_score Option.none (Option.some phqRecord7) Option.none
      Option.none [heroinRow]).domains_assessed = 2 ∧
    (calculate_composite_risk_score Option.none (Option.some phqRecord7) Option.none
      Option.none [heroinRow]).composite_score = 5/2 ∧
    (calculate_composite_risk_score Option.none (Option.some phqRecord7) Option.none
      Option.none [heroinRow]).overall_risk = "moderate" := by
  have hround : round2 ((5 : ℚ)/2) = 5/2 := by
    have hfloor : ⌊(5 : ℚ)/2 * 100⌋ = 250 := by
      rw [Int.floor_eq_iff]
      constructor <;> norm_num
    simp only [round2, roundHalfEven, hfloor]
    rw [if_pos (by norm_num)]
    norm_num
  have hcs : (calculate_composite_risk_score Option.none (Option.some phqRecord7)
      Option.none Option.none [heroinRow]).composite_score =
      round2 (((5 : Nat) : ℚ) / ((2 : Nat) : ℚ)) := rfl
  have hcast : (((5 : Nat) : ℚ) / ((2 : Nat) : ℚ)) = (5 : ℚ)/2 := by norm_num
  have hov : (calculate_composite_risk_score Option.none (Option.some phqRecord7)
      Option.none Option.none [heroinRow]).overall_risk =
      (if ((5 : Nat) : ℚ) / ((2 : Nat) : ℚ) < 2 then "low"
       else if ((5 : Nat) : ℚ) / ((2 : Nat) : ℚ) < 3 then "moderate" else "high") := rfl
  refine ⟨?_, ?_, by decide, by decide, ?_, ?_⟩
  · intro p q g w srows
    by_cases h : 0 < (compositeDomains p q g w srows).length
    · rw [composite_pos p q g w srows h]
      exact ⟨compositeDomains_map_fst p q g w srows, rfl⟩
    · have hempty : compositeDomains p q g w srows = [] :=
        List.length_eq_zero.mp (by omega)
      rw [composite_zero p q g w srows h]
      refine ⟨?_, rfl⟩
      calc ([] : List (String × Nat)).map Prod.fst
          = (compositeDomains p q g w srows).map Prod.fst := by rw [hempty]
        _ = _ := compositeDomains_map_fst p q g w srows
  · intro p q g w srows h
    by_cases hl : 0 < (compositeDomains p q g w srows).length
    · rw [composite_pos p q g w srows hl]
      exact ⟨rfl, rfl, rfl, rfl⟩
    · exfalso
      rw [composite_zero p q g w srows hl] at h
      exact absurd h (lt_irrefl 0)
  · rw [hcs, hcast, hround]
  · rw [hov, if_neg (by norm_num), if_pos (by norm_num)]

/-- The flag invariant holds for the empty accumulator. -/
theorem flagInv_nil : FlagInv [] (fun _ => 0) := by
  intro pid
  refine ⟨rfl, ?_⟩
  intro e he
  exact absurd he (List.not_mem_nil e)

/-- The flag invariant is stable under rewriting the tracked count. -/
theorem flagInv_congr {l : List FlagEntry} {f g : Name → Nat} (h : FlagInv l f)
    (hfg : ∀ pid, f pid = g pid) : FlagInv l g := by
  intro pid
  obtain ⟨h1, h2⟩ := h pid
  rw [← hfg pid]
  exact ⟨h1, h2⟩

/-- The flag invariant transports along permutations of the flag list. -/
theorem flagInv_perm {l lp : List FlagEntry} {f : Name → Nat} (hp : l.Perm lp)
    (h : FlagInv l f) : FlagInv lp f := by
  intro pid
  obtain ⟨h1, h2⟩ := h pid
  refine ⟨?_, ?_⟩
  · rw [← (hp.filter (fun e => decide (e.patient = pid))).length_eq]
    exact h1
  · intro e he hep
    exact h2 e (hp.mem_iff.mpr he) hep

/-- `addFlag` bumps exactly the processed patient's count: an already
flagged patient keeps a single entry whose risk level and assessment count
grow by one; a new patient gains a single entry at risk level 1. -/
theorem flagInv_addFlag {l : List FlagEntry} {f : Name → Nat} (h : FlagInv l f)
    (t : String) (p : Name) (tot : ℚ) :
    FlagInv (addFlag l t p tot) (fun pid => if p = pid then f pid + 1 else f pid) := by
  intro pid
  simp only [addFlag]
  cases hany : l.any (fun e => decide (e.patient = p)) with
  | false =>
    rw [if_neg Bool.false_ne_true]
    have hnotp : ∀ e ∈ l, ¬ e.patient = p := by
      intro e he
      have hx := List.any_eq_false.mp hany e he
      simpa using hx
    have hfil : l.filter (fun e => decide (e.patient = p)) = [] := by
      rw [List.filter_eq_nil_iff]
      intro e he
      simpa using hnotp e he
    have hfp : f p = 0 := by
      obtain ⟨h1, _⟩ := h p
      rw [hfil] at h1
      by_cases hc : f p = 0
      · exact hc
      · rw [if_neg hc] at h1
        simpa using h1
    by_cases hp : p = pid
    · subst hp
      refine ⟨?_, ?_⟩
      · rw [List.filter_append, List.length_append, hfil]
        simp [hfp]
      · intro e he hep
        rcases List.mem_append.mp he with hel | henew
        · exact absurd hep (hnotp e hel)
        · have he2 : e = ⟨p, [(t, tot)], 1⟩ := by simpa using henew
          subst he2
          simp [hfp]
    · refine ⟨?_, ?_⟩
      · rw [List.filter_append, List.length_append]
        have hnewfil : ([⟨p, [(t, tot)], 1⟩] : List FlagEntry).filter
            (fun e => decide (e.patient = pid)) = [] := by
          rw [List.filter_eq_nil_iff]
          intro e he
          have he2 : e = ⟨p, [(t, tot)], 1⟩ := by simpa using he
          subst he2
          simpa using hp
        rw [hnewfil]
        obtain ⟨h1, _⟩ := h pid
        have hcond : (if p = pid then f pid + 1 else f pid) = f pid := if_neg hp
        simp only [hcond]
        simpa using h1
      · intro e he hep
        rw [if_neg hp]
        rcases List.mem_append.mp he with hel | henew
        · exact (h pid).2 e hel hep
        · have he2 : e = ⟨p, [(t, tot)], 1⟩ := by simpa using henew
          subst he2
          exact absurd hep hp
  | true =>
    rw [if_pos rfl]
    have hnotzero : f p ≠ 0 := by
      obtain ⟨e0, he0, hpe0⟩ : ∃ e ∈ l, e.patient = p := by
        obtain ⟨e0, he0, hx⟩ := List.any_eq_true.mp hany
        exact ⟨e0, he0, of_decide_eq_true hx⟩
      intro hzero
      obtain ⟨h1, _⟩ := h p
      rw [if_pos hzero] at h1
      have : e0 ∈ l.filter (fun e => decide (e.patient = p)) :=
        List.mem_filter.mpr ⟨he0, decide_eq_true hpe0⟩
      rw [List.length_eq_zero.mp h1] at this
      exact absurd this (List.not_mem_nil e0)
    have hpat : ∀ e : FlagEntry,
        ((if e.patient = p then
            ({ e with
                concerning_assessments := e.concerning_assessments ++ [(t, tot)],
                risk_level := e.risk_level + 1 } : FlagEntry)
          else e)).patient = e.patient := by
      intro e
      by_cases hep : e.patient = p
      · rw [if_pos hep]
      · rw [if_neg hep]
    refine ⟨?_, ?_⟩
    · rw [List.filter_map]
      rw [List.length_map]
      have hcong : l.filter ((fun e : FlagEntry => decide (e.patient = pid)) ∘
          (fun e : FlagEntry =>
            if e.patient = p then
              { e with
                  concerning_assessments := e.concerning_assessments ++ [(t, tot)],
                  risk_level := e.risk_level + 1 }
            else e)) =
          l.filter (fun e => decide (e.patient = pid)) := by
        refine List.filter_congr ?_
        intro e _
        simp only [Function.comp]
        rw [hpat e]
      rw [hcong]
      obtain ⟨h1, _⟩ := h pid
      by_cases hp : p = pid
      · subst hp
        simp only [eq_self_iff_true, if_true]
        rw [if_neg (show ¬(f p + 1 = 0) by omega)]
        rw [if_neg hnotzero] at h1
        exact h1
      · have hcond : (if p = pid then f pid + 1 else f pid) = f pid := if_neg hp
        simp only [hcond]
        exact h1
    · intro ep hep hpatp
      obtain ⟨e, hel, hge⟩ := List.mem_map.mp hep
      by_cases hemp : e.patient = p
      · have hgep : ep = { e with
            concerning_assessments := e.concerning_assessments ++ [(t, tot)],
            risk_level := e.risk_level + 1 } := by
          rw [← hge, if_pos hemp]
        have hpidp : p = pid := by
          rw [hgep] at hpatp
          simp only at hpatp
          rw [← hemp, hpatp]
        subst hpidp
        rw [if_pos rfl]
        obtain ⟨_, h2⟩ := h p
        obtain ⟨hr, hc⟩ := h2 e hel hemp
        rw [hgep]
        refine ⟨?_, ?_⟩
        · show e.risk_level + 1 = _
          rw [hr]
        · show (e.concerning_assessments ++ [(t, tot)]).length = _
          rw [List.length_append, hc]
          rfl
      · have hgee : ep = e := by
          rw [← hge, if_neg hemp]
        subst hgee
        have hppid : ¬ p = pid := by
          intro hpp
          exact hemp (by rw [hpatp, hpp])
        rw [if_neg hppid]
        exact (h pid).2 ep hel hpatp

/-- Folding `addFlag` over concerning `(patient, total)` rows adds each
row's patient once. -/
theorem flagInv_foldl (t : String) :
    ∀ (rs : List (Name × ℚ)) {l : List FlagEntry} {f : Name → Nat},
      FlagInv l f →
      FlagInv (rs.foldl (fun a r => addFlag a t r.1 r.2) l)
        (fun pid => f pid + (rs.map Prod.fst).countP (fun x => decide (x = pid))) := by
  intro rs
  induction rs with
  | nil =>
    intro l f h
    exact flagInv_congr h (fun pid => by simp)
  | cons r rs ih =>
    intro l f h
    have h1 := flagInv_addFlag h t r.1 r.2
    have h2 := ih h1
    refine flagInv_congr h2 ?_
    intro pid
    simp only [List.map_cons, List.countP_cons]
    by_cases hp : r.1 = pid
    · rw [if_pos hp, if_pos (decide_eq_true hp)]
      omega
    · rw [if_neg hp, if_neg (by simpa using hp)]
      omega

/-- On a duplicate-free list of names the match count is an indicator of
membership. -/
theorem countP_eq_indicator_of_nodup {l : List Name} (h : l.Nodup) (pid : Name) :
    l.countP (fun x => decide (x = pid)) = if pid ∈ l then 1 else 0 := by
  induction l with
  | nil => simp
  | cons a as ih =>
    rcases List.nodup_cons.mp h with ⟨ha, has⟩
    rw [List.countP_cons, ih has]
    by_cases hap : a = pid
    · subst hap
      rw [if_pos (decide_eq_true rfl), if_neg ha, if_pos (List.mem_cons_self a as)]
    · rw [if_neg (fun hc => hap (of_decide_eq_true hc))]
      by_cases hmem : pid ∈ as
      · rw [if_pos hmem, if_pos (List.mem_cons_of_mem a hmem)]
      · rw [if_neg hmem,
          if_neg (fun hc => (List.mem_cons.mp hc).elim (fun hx => hap hx.symm) hmem)]

/-- The per-kind pass contributes the kind's flag indicator to every
patient's count, given duplicate-free latest-per-patient rows. -/
theorem flagInv_processKind {l : List FlagEntry} {f : Name → Nat}
    (h : FlagInv l f) (t : String) (pred : Name → Bool) (thr : ℚ)
    (rows : List (Name × Record)) (hnd : (rows.map Prod.fst).Nodup) :
    FlagInv (processKind l t pred thr rows)
      (fun pid => f pid + (if flaggedIn pred thr rows pid then 1 else 0)) := by
  have hbase := flagInv_foldl t
    ((rows.map (fun r => (r.1, floatTotal pred r.2))).filter (fun r => decide (thr ≤ r.2)))
    h
  refine flagInv_congr hbase ?_
  intro pid
  congr 1
  have hmapfst : (rows.map (fun r => (r.1, floatTotal pred r.2))).map Prod.fst =
      rows.map Prod.fst := by
    rw [List.map_map]
    rfl
  have hnd2 : (((rows.map (fun r => (r.1, floatTotal pred r.2))).filter
      (fun r => decide (thr ≤ r.2))).map Prod.fst).Nodup := by
    have hsub : List.Sublist
        (((rows.map (fun r => (r.1, floatTotal pred r.2))).filter
          (fun r => decide (thr ≤ r.2))).map Prod.fst)
        ((rows.map (fun r => (r.1, floatTotal pred r.2))).map Prod.fst) :=
      (List.filter_sublist _).map Prod.fst
    rw [hmapfst] at hsub
    exact hnd.sublist hsub
  rw [countP_eq_indicator_of_nodup hnd2]
  have hiff : pid ∈ ((rows.map (fun r => (r.1, floatTotal pred r.2))).filter
      (fun r => decide (thr ≤ r.2))).map Prod.fst ↔
      flaggedIn pred thr rows pid = true := by
    constructor
    · intro hmem
      obtain ⟨r, hr, hrfst⟩ := List.mem_map.mp hmem
      exact List.any_eq_true.mpr ⟨r, hr, decide_eq_true hrfst⟩
    · intro hany
      obtain ⟨r, hr, hrfst⟩ := List.any_eq_true.mp hany
      exact List.mem_map.mpr ⟨r, hr, of_decide_eq_true hrfst⟩
  by_cases hf : flaggedIn pred thr rows pid = true
  · rw [if_pos (hiff.mpr hf), if_pos hf]
  · rw [if_neg (fun hm => hf (hiff.mp hm)), if_neg hf]

/-- C7: with duplicate-free latest-per-patient tables, every patient whose
latest totals cross k ≥ 1 of the kind thresholds appears exactly once in the
flagged list, with one concerning-assessments entry per flagging kind and
risk_level = k, a patient crossing no threshold does not appear, and the
final list is sorted descending by this risk_level; concretely, a patient
crossing both the PHQ ≥ 15 and GAD ≥ 15 thresholds appears once with two
concerning assessments at risk level 2, ranked above a single-flag patient. -/
theorem cohort_flagging_spec (ptsdRows phqRows gadRows : List (Name × Record))
    (h1 : (ptsdRows.map Prod.fst).Nodup) (h2 : (phqRows.map Prod.fst).Nodup)
    (h3 : (gadRows.map Prod.fst).Nodup) :
    FlagInv (identify_patients_needing_attention ptsdRows phqRows gadRows)
      (flagKindCount ptsdRows phqRows gadRows) ∧
    (identify_patients_needing_attention ptsdRows phqRows gadRows).Pairwise
      (fun a b => b.risk_level ≤ a.risk_level) ∧
    identify_patients_needing_attention [] phqLatestRows gadLatestRows =
      [⟨("a".data), [("phq", 16), ("gad", 15)], 2⟩,
       ⟨("b".data), [("phq", 18)], 1⟩] := by
  have s1 := flagInv_processKind flagInv_nil "ptsd" (gascPred "ptsd") 50 ptsdRows h1
  have s2 := flagInv_processKind s1 "phq" (gascPred "phq") 15 phqRows h2
  have s3 := flagInv_processKind s2 "gad" (gascPred "gad") 15 gadRows h3
  have hpre : FlagInv (processKind (processKind (processKind [] "ptsd" (gascPred "ptsd")
      50 ptsdRows) "phq" (gascPred "phq") 15 phqRows) "gad" (gascPred "gad") 15 gadRows)
      (flagKindCount ptsdRows phqRows gadRows) := by
    refine flagInv_congr s3 ?_
    intro pid
    simp only [flagKindCount, Nat.zero_add]
  refine ⟨?_, ?_, ?_⟩
  · exact flagInv_perm (List.mergeSort_perm _ _).symm hpre
  · have hs : (List.mergeSort (processKind (processKind (processKind [] "ptsd"
        (gascPred "ptsd") 50 ptsdRows) "phq" (gascPred "phq") 15 phqRows)
        "gad" (gascPred "gad") 15 gadRows)
        (fun a b => decide (b.risk_level ≤ a.risk_level))).Pairwise
        (fun a b => decide (b.risk_level ≤ a.risk_level) = true) :=
      @List.sorted_mergeSort FlagEntry
        (fun a b => decide (b.risk_level ≤ a.risk_level))
        (fun a b c hab hbc =>
          decide_eq_true (le_trans (of_decide_eq_true hbc) (of_decide_eq_true hab)))
        (fun a b => by
          rcases Nat.le_total b.risk_level a.risk_level with hx | hx <;> simp [hx])
        _
    exact hs.imp (fun hx => of_decide_eq_true hx)
  · have hA : floatTotal (gascPred "phq") [(("col_1_a".data), Val.vint 16)] = 16 := by
      show ((16 : Int) : ℚ) + 0 = 16
      norm_num
    have hB : floatTotal (gascPred "phq") [(("col_1_a".data), Val.vint 18)] = 18 := by
      show ((18 : Int) : ℚ) + 0 = 18
      norm_num
    have hAg : floatTotal (gascPred "gad") [(("col_1_g".data), Val.vint 15)] = 15 := by
      show ((15 : Int) : ℚ) + 0 = 15
      norm_num
    have hBg : floatTotal (gascPred "gad") [(("col_1_g".data), Val.vint 3)] = 3 := by
      show ((3 : Int) : ℚ) + 0 = 3
      norm_num
    have hmapP : phqLatestRows.map (fun r => (r.1, floatTotal (gascPred "phq") r.2)) =
        [(("a".data), (16 : ℚ)), (("b".data), (18 : ℚ))] := by
      simp only [phqLatestRows, List.map_cons, List.map_nil]
      rw [hA, hB]
    have hmapG : gadLatestRows.map (fun r => (r.1, floatTotal (gascPred "gad") r.2)) =
        [(("a".data), (15 : ℚ)), (("b".data), (3 : ℚ))] := by
      simp only [gadLatestRows, List.map_cons, List.map_nil]
      rw [hAg, hBg]
    have hpre2 : processKind (processKind (processKind [] "ptsd" (gascPred "ptsd") 50 [])
        "phq" (gascPred "phq") 15 phqLatestRows) "gad" (gascPred "gad") 15 gadLatestRows =
        [⟨("a".data), [("phq", 16), ("gad", 15)], 2⟩,
         ⟨("b".data), [("phq", 18)], 1⟩] := by
      simp only [processKind]
      rw [hmapP, hmapG]
      decide
    show (processKind (processKind (processKind [] "ptsd" (gascPred "ptsd") 50 [])
        "phq" (gascPred "phq") 15 phqLatestRows) "gad" (gascPred "gad")
        15 gadLatestRows).mergeSort (fun a b => decide (b.risk_level ≤ a.risk_level)) = _
    rw [hpre2]
    exact List.mergeSort_of_sorted (by decide)

/-- C9: the modelled public operations are total from the caller's
perspective: for every outcome of the backing-store calls — including the
store raising an exception — they return exactly one structured shape
(success, message, or error) and never propagate the exception: a store
error surfaces as the error shape carrying the original message, an empty
result as the informational message shape, and data as the success shape. -/
theorem tool_totality :
    (∀ pid e, get_patient_ptsd_scores pid (Except.error e) =
      .error ("Failed to retrieve PTSD scores: " ++ e)) ∧
    (∀ pid, get_patient_ptsd_scores pid (Except.ok []) =
      .message ("No PTSD assessments found for patient " ++ pid)) ∧
    (∀ pid rows, rows ≠ [] → ∃ p, get_patient_ptsd_scores pid (Except.ok rows) =
      .success p ∧ p.assessment_count = rows.length ∧
      p.assessments = rows.map calculate_assessment_total_ptsd) ∧
    (∀ p1 p2 p3 p4 p5,
      (∃ c, calculate_composite_risk_tool p1 p2 p3 p4 p5 = .success c) ∨
      (∃ msg, calculate_composite_risk_tool p1 p2 p3 p4 p5 = .error msg)) ∧
    (∀ e p2 p3 p4 p5, calculate_composite_risk_tool (Except.error e) p2 p3 p4 p5 =
      .error ("Failed to calculate composite risk score: " ++ e)) := by
  refine ⟨fun pid e => rfl, fun pid => rfl, ?_, ?_, fun e p2 p3 p4 p5 => rfl⟩
  · intro pid rows hne
    cases rows with
    | nil => exact absurd rfl hne
    | cons r rs =>
      refine ⟨_, rfl, ?_, ?_⟩
      · show ((r :: rs).map calculate_assessment_total_ptsd).length = (r :: rs).length
        rw [List.length_map]
      · rfl
  · intro p1 p2 p3 p4 p5
    cases hb : compositeBody p1 p2 p3 p4 p5 with
    | ok c =>
      left
      refine ⟨c, ?_⟩
      simp only [calculate_composite_risk_tool, hb]
    | error e =>
      right
      refine ⟨"Failed to calculate composite risk score: " ++ e, ?_⟩
      simp only [calculate_composite_risk_tool, hb]

/-- String inputs never raise past the function: a parse failure is a
ValueError, which the except clause converts to the default. -/
theorem safe_float_conversion_py_str (s : Name) (d : PyFloat) :
    safe_float_conversion_py (.vstr s) d =
      (match pyFloatOfString s with
       | Option.some f => Except.ok f
       | Option.none => Except.ok d) := by
  cases h : pyFloatOfString s <;>
    simp [safe_float_conversion_py, pyFloatCall, h]

/-- A million is far below the double overflow bound (via monotonicity of
powers of two, avoiding any evaluation of the huge literals). -/
theorem million_lt_overflowBound : 1000000 < overflowBound := by
  have h1 : (2 : Nat) ^ 970 ≤ 2 ^ 1023 := Nat.pow_le_pow_right (by norm_num) (by norm_num)
  have h2 : (2 : Nat) ^ 1024 = 2 ^ 1023 + 2 ^ 1023 := by
    rw [show (1024 : Nat) = 1023 + 1 from rfl, Nat.pow_succ]
    omega
  have h4 : (1000000 : Nat) < 2 ^ 20 := by norm_num
  have h5 : (2 : Nat) ^ 20 ≤ 2 ^ 1023 := Nat.pow_le_pow_right (by norm_num) (by norm_num)
  simp only [overflowBound]
  omega

/-- Small rationals are strictly below the double overflow bound. -/
theorem not_overflowBound_le_small {q : ℚ} (hq : q ≤ 1000000) :
    ¬ ((overflowBound : ℚ) ≤ q) := by
  intro hle
  have h2 : (1000000 : ℚ) < ((overflowBound : Nat) : ℚ) := by
    exact_mod_cast million_lt_overflowBound
  linarith

set_option maxRecDepth 40000 in
/-- Evaluation of `safe_float_conversion_py` on an integer beyond the
double range: the OverflowError propagates. -/
theorem safe_float_conversion_py_int_ovf (n : Int) (d : PyFloat)
    (h : overflowBound ≤ n.natAbs) :
    safe_float_conversion_py (.vint n) d = Except.error PyExc.overflowError := by
  show (match (if overflowBound ≤ n.natAbs then Except.error PyExc.overflowError
      else Except.ok (PyFloat.finite ((n : ℚ)))) with
    | Except.ok f => Except.ok f
    | Except.error PyExc.valueError => Except.ok d
    | Except.error PyExc.typeError => Except.ok d
    | Except.error PyExc.overflowError => Except.error PyExc.overflowError) = _
  rw [if_pos h]

set_option maxRecDepth 40000 in
/-- Evaluation of `safe_float_conversion_py` on an in-range integer. -/
theorem safe_float_conversion_py_int_ok (n : Int) (d : PyFloat)
    (h : ¬ (overflowBound ≤ n.natAbs)) :
    safe_float_conversion_py (.vint n) d = Except.ok (PyFloat.finite ((n : ℚ))) := by
  show (match (if overflowBound ≤ n.natAbs then Except.error PyExc.overflowError
      else Except.ok (PyFloat.finite ((n : ℚ)))) with
    | Except.ok f => Except.ok f
    | Except.error PyExc.valueError => Except.ok d
    | Except.error PyExc.typeError => Except.ok d
    | Except.error PyExc.overflowError => Except.error PyExc.overflowError) = _
  rw [if_neg h]

set_option maxRecDepth 40000 in
/-- The double overflow bound is below 10^1000 (again by monotonicity,
with no evaluation of the huge literals). -/
theorem overflowBound_le_ten_pow : overflowBound ≤ ((10 : Int) ^ 1000).natAbs := by
  rw [Int.natAbs_pow]
  have ha : (2 : Nat) ^ 1024 ≤ 2 ^ 3000 := Nat.pow_le_pow_right (by norm_num) (by norm_num)
  have hb : (2 : Nat) ^ 3000 = (2 ^ 3) ^ 1000 := by
    rw [← Nat.pow_mul]
  have hc : ((2 : Nat) ^ 3) ^ 1000 ≤ ((10 : Int).natAbs) ^ 1000 :=
    Nat.pow_le_pow_left (by norm_num) 1000
  simp only [overflowBound]
  omega

/-- C8 is refuted: `except (ValueError, TypeError)` does not catch the
OverflowError that Python `float` raises on an integer beyond the double
range, so on the input 10^1000 safe_float_conversion raises instead of
returning a value — it is not total over every input. -/
theorem safe_float_conversion_raises :
    safe_float_conversion_py (.vint (10 ^ 1000)) (.finite 0) =
      Except.error PyExc.overflowError ∧
    ∀ r, safe_float_conversion_py (.vint (10 ^ 1000)) (.finite 0) ≠ Except.ok r := by
  have hmain : safe_float_conversion_py (.vint (10 ^ 1000)) (.finite 0) =
      Except.error PyExc.overflowError :=
    safe_float_conversion_py_int_ovf (10 ^ 1000) (.finite 0) overflowBound_le_ten_pow
  refine ⟨hmain, ?_⟩
  intro r hr
  rw [hmain] at hr
  exact Except.noConfusion hr

/-- C8 amended: safe_float_conversion returns `float(value)` when the value
is numerically convertible (including numeric strings) and the default when
`float` raises ValueError or TypeError; it never raises for any input
EXCEPT an integer whose magnitude reaches the double-overflow bound
2^1024 − 2^970, where Python `float` raises an OverflowError that the
`except (ValueError, TypeError)` clause does not catch, so that exception
propagates.  In particular None, "" and "abc" yield the default; "3.5"
yields 3.5 (also with surrounding whitespace), "1e3" yields 1000.0, "inf"
yields the float infinity, and the integer 2 yields 2.0. -/
theorem safe_float_conversion_total_amended :
    (∀ v d, safe_float_conversion_py v d =
      (match pyFloatCall v with
       | Except.ok f => Except.ok f
       | Except.error PyExc.overflowError => Except.error PyExc.overflowError
       | Except.error _ => Except.ok d)) ∧
    (∀ v d, (∀ n : Int, v = Val.vint n → n.natAbs < overflowBound) →
      ∃ r, safe_float_conversion_py v d = Except.ok r) ∧
    (∀ d, safe_float_conversion_py Val.vnone d = Except.ok d) ∧
    (∀ d, safe_float_conversion_py (.vstr []) d = Except.ok d) ∧
    (∀ d, safe_float_conversion_py (.vstr ("abc".data)) d = Except.ok d) ∧
    safe_float_conversion_py (.vstr ("3.5".data)) (.finite 0) =
      Except.ok (PyFloat.finite (7/2)) ∧
    safe_float_conversion_py (.vstr (" 3.5 ".data)) (.finite 0) =
      Except.ok (PyFloat.finite (7/2)) ∧
    safe_float_conversion_py (.vstr ("1e3".data)) (.finite 0) =
      Except.ok (PyFloat.finite 1000) ∧
    safe_float_conversion_py (.vstr ("inf".data)) (.finite 0) =
      Except.ok PyFloat.inf ∧
    safe_float_conversion_py (.vint 2) (.finite 0) =
      Except.ok (PyFloat.finite 2) := by
  have hm35 : parseUnsignedFloat ("3.5".data) = Option.some (7/2) := by
    show Option.some ((digitsVal ("3".data) : ℚ) + (digitsVal ("5".data) : ℚ) / (10 : ℚ) ^ 1) = _
    show Option.some ((3 : ℚ) + (5 : ℚ) / (10 : ℚ) ^ 1) = _
    norm_num
  have hcore35 : parseUnsignedPyFloat ("3.5".data) = Option.some (PyFloat.finite (7/2)) := by
    show (parseUnsignedFloat ("3.5".data)).map
        (fun q => if (overflowBound : ℚ) ≤ q then PyFloat.inf else PyFloat.finite q) = _
    rw [hm35]
    show Option.some (if (overflowBound : ℚ) ≤ (7/2 : ℚ) then PyFloat.inf
      else PyFloat.finite (7/2)) = _
    rw [if_neg (not_overflowBound_le_small (by norm_num))]
  have h35 : safe_float_conversion_py (.vstr ("3.5".data)) (.finite 0) =
      Except.ok (PyFloat.finite (7/2)) := by
    rw [safe_float_conversion_py_str]
    have hs : pyFloatOfString ("3.5".data) = Option.some (PyFloat.finite (7/2)) := by
      show parseUnsignedPyFloat ("3.5".data) = _
      exact hcore35
    rw [hs]
  have h35ws : safe_float_conversion_py (.vstr (" 3.5 ".data)) (.finite 0) =
      Except.ok (PyFloat.finite (7/2)) := by
    rw [safe_float_conversion_py_str]
    have hs : pyFloatOfString (" 3.5 ".data) = Option.some (PyFloat.finite (7/2)) := by
      show parseUnsignedPyFloat ("3.5".data) = _
      exact hcore35
    rw [hs]
  have hm1 : parseUnsignedFloat ("1".data) = Option.some 1 := by
    show Option.some ((digitsVal ("1".data) : ℚ)) = _
    show Option.some (((1 : Nat) : ℚ)) = _
    norm_num
  have hexp3 : parseExp ("3".data) = Option.some 3 := by
    show Option.some ((digitsVal ("3".data) : Int)) = _
    show Option.some (((3 : Nat) : Int)) = _
    norm_num
  have hcore1e3 : parseUnsignedPyFloat ("1e3".data) = Option.some (PyFloat.finite 1000) := by
    show (match parseUnsignedFloat ("1".data), parseExp ("3".data) with
      | Option.some q, Option.some e =>
        Option.some (if (overflowBound : ℚ) ≤ q * (10 : ℚ) ^ e then PyFloat.inf
          else PyFloat.finite (q * (10 : ℚ) ^ e))
      | _, _ => Option.none) = _
    rw [hm1, hexp3]
    show Option.some (if (overflowBound : ℚ) ≤ (1 : ℚ) * (10 : ℚ) ^ (3 : Int) then PyFloat.inf
      else PyFloat.finite ((1 : ℚ) * (10 : ℚ) ^ (3 : Int))) = _
    have hv : (1 : ℚ) * (10 : ℚ) ^ (3 : Int) = 1000 := by norm_num
    simp only [hv]
    rw [if_neg (not_overflowBound_le_small (by norm_num))]
  have h1e3 : safe_float_conversion_py (.vstr ("1e3".data)) (.finite 0) =
      Except.ok (PyFloat.finite 1000) := by
    rw [safe_float_conversion_py_str]
    have hs : pyFloatOfString ("1e3".data) = Option.some (PyFloat.finite 1000) := by
      show parseUnsignedPyFloat ("1e3".data) = _
      exact hcore1e3
    rw [hs]
  have hinf : safe_float_conversion_py (.vstr ("inf".data)) (.finite 0) =
      Except.ok PyFloat.inf := by
    rw [safe_float_conversion_py_str]
    rfl
  have hb2 : ¬ (overflowBound ≤ ((2 : Int)).natAbs) := by
    show ¬ (overflowBound ≤ (2 : Nat))
    have hm := million_lt_overflowBound
    omega
  have h2 : safe_float_conversion_py (.vint 2) (.finite 0) =
      Except.ok (PyFloat.finite 2) := by
    rw [safe_float_conversion_py_int_ok 2 (PyFloat.finite 0) hb2]
    norm_num
  have hchar : ∀ v d, safe_float_conversion_py v d =
      (match pyFloatCall v with
       | Except.ok f => Except.ok f
       | Except.error PyExc.overflowError => Except.error PyExc.overflowError
       | Except.error _ => Except.ok d) := by
    intro v d
    by_cases hv : v = Val.vnone
    · subst hv
      rfl
    · simp only [safe_float_conversion_py, if_neg hv]
      cases hc : pyFloatCall v with
      | ok f => rfl
      | error e => cases e <;> rfl
  have htot : ∀ v d, (∀ n : Int, v = Val.vint n → n.natAbs < overflowBound) →
      ∃ r, safe_float_conversion_py v d = Except.ok r := by
    intro v d hsafe
    cases v with
    | vnone => exact ⟨d, rfl⟩
    | vint n =>
      have hlt : n.natAbs < overflowBound := hsafe n rfl
      exact ⟨PyFloat.finite ((n : ℚ)),
        safe_float_conversion_py_int_ok n d (by omega)⟩
    | vrat q => exact ⟨PyFloat.finite q, rfl⟩
    | vstr s =>
      rw [safe_float_conversion_py_str]
      cases hp : pyFloatOfString s with
      | some f => exact ⟨f, rfl⟩
      | none => exact ⟨d, rfl⟩
  exact ⟨hchar, htot, fun d => rfl, fun d => rfl, fun d => rfl, h35, h35ws, h1e3, hinf, h2⟩

/-- Concrete instantiation of the amended C8 statement: an in-range integer
input never raises. -/
theorem safe_float_conversion_total_amended_witness :
    ∃ r, safe_float_conversion_py (Val.vint 5) (PyFloat.finite 0) = Except.ok r :=
  safe_float_conversion_total_amended.2.1 (Val.vint 5) (PyFloat.finite 0)
    (fun n hn => by
      cases hn
      show (5 : Nat) < overflowBound
      have hm := million_lt_overflowBound
      omega)

/-- Concrete instantiation of the C9 statement: a raising store surfaces as
the structured error shape. -/
theorem tool_totality_witness :
    get_patient_ptsd_scores "p1" (Except.error "connection reset") =
      .error ("Failed to retrieve PTSD scores: " ++ "connection reset") :=
  tool_totality.1 "p1" "connection reset"

/-- Concrete instantiation of the C7 statement: the flagging scenario lists
patient a (two flagging kinds) ahead of patient b (one). -/
theorem cohort_flagging_witness :
    identify_patients_needing_attention [] phqLatestRows gadLatestRows =
      [⟨("a".data), [("phq", 16), ("gad", 15)], 2⟩,
       ⟨("b".data), [("phq", 18)], 1⟩] :=
  (cohort_flagging_spec [] phqLatestRows gadLatestRows (by decide) (by decide)
    (by decide)).2.2

/-- Concrete instantiation of the amended C3 statement: the two-domain
scenario is assessed over exactly the depression and substance-use domains. -/
theorem composite_risk_aggregation_witness :
    (calculate_composite_risk_score Option.none (Option.some phqRecord7) Option.none
      Option.none [heroinRow]).total_risk_score =
      (((calculate_composite_risk_score Option.none (Option.some phqRecord7) Option.none
        Option.none [heroinRow]).risk_domains.map Prod.snd).sum) :=
  (composite_risk_aggregation.2.1 Option.none (Option.some phqRecord7) Option.none
    Option.none [heroinRow] (by decide)).1

end DoctorsHelper
